import Mathlib

/-!
Shallow embedding of `src/pytest_elasticsearch/executor.py`.

Python strings are modelled as Lean `String` / `List Char`, Python `int` as
`Nat` (all integers appearing here — ports, version parts, timeouts — are
non-negative in the source), Python `bytes` as `List Nat` (byte values),
`None`-able values as `Option`, and raised exceptions as `Except` errors
carrying the exception message (the source raises `RuntimeError` with a
message in every error path).  The external process invocation performed by
`subprocess.check_output([executable, "-Vv"])` is modelled as an explicit
parameter of type `Except Unit String`: `Except.error ()` stands for the
`OSError` raised when the binary cannot be spawned, `Except.ok out` for the
decoded standard output.  The regular-expression character class `\d` is
modelled as the ASCII digits (the relevant binary output is ASCII).
-/

/-- The single-quote character, written via its code point. -/
def squote : Char := Char.ofNat 39

/-- Python's decimal digit character for a value `0 ≤ n ≤ 9` (models `str(int)`). -/
def digitChar (n : Nat) : Char := Char.ofNat (48 + n)

/-- Fuel-driven decimal digit expansion of a natural number, most significant first. -/
def natDigitsAux : Nat → Nat → List Char
  | 0, _ => []
  | fuel + 1, n => if n < 10 then [digitChar n] else natDigitsAux fuel (n / 10) ++ [digitChar (n % 10)]

/-- Decimal representation of a natural number; models Python `str(n)` for `n ≥ 0`. -/
def natDigits (n : Nat) : List Char := natDigitsAux (n + 1) n

/-- The standard base64 alphabet (RFC 4648), as used by Python `base64.b64encode`. -/
def b64alpha (n : Nat) : Char :=
  if n < 26 then Char.ofNat (65 + n)
  else if n < 52 then Char.ofNat (97 + (n - 26))
  else if n < 62 then Char.ofNat (48 + (n - 52))
  else if n = 62 then '+'
  else '/'

/-- Standard base64 encoding of a byte sequence, with `=` padding;
models Python `base64.b64encode`. -/
def b64encode : List Nat → List Char
  | [] => []
  | [b1] => [b64alpha (b1 / 4), b64alpha (b1 % 4 * 16), '=', '=']
  | [b1, b2] => [b64alpha (b1 / 4), b64alpha (b1 % 4 * 16 + b2 / 16), b64alpha (b2 % 16 * 4), '=']
  | b1 :: b2 :: b3 :: rest =>
      b64alpha (b1 / 4) :: b64alpha (b1 % 4 * 16 + b2 / 16) ::
        b64alpha (b2 % 16 * 4 + b3 / 64) :: b64alpha (b3 % 64) :: b64encode rest

/-- UTF-8 encoding of a single character; models Python `str.encode()` per code point. -/
def utf8EncodeChar (c : Char) : List Nat :=
  let n := c.toNat
  if n < 128 then [n]
  else if n < 2048 then [192 + n / 64, 128 + n % 64]
  else if n < 65536 then [224 + n / 4096, 128 + n / 64 % 64, 128 + n % 64]
  else [240 + n / 262144, 128 + n / 4096 % 64, 128 + n / 64 % 64, 128 + n % 64]

/-- UTF-8 encoding of a string; models Python `str.encode()`. -/
def strBytes (s : String) : List Nat := s.data.foldr (fun c acc => utf8EncodeChar c ++ acc) []

/-- Lower-case hexadecimal digit for `0 ≤ n ≤ 15`. -/
def hexDigit (n : Nat) : Char := if n < 10 then digitChar n else Char.ofNat (87 + n)

/-- How one byte is rendered inside Python's `repr` of a `bytes` object:
printable ASCII bytes stand for themselves, backslash and the single quote are
backslash-escaped, tab/newline/carriage-return use the short escapes, and every
other byte uses a `\xHH` escape. -/
def byteReprChars (b : Nat) : List Char :=
  if b = 92 then ['\\', '\\']
  else if b = 39 then ['\\', squote]
  else if b = 9 then ['\\', 't']
  else if b = 10 then ['\\', 'n']
  else if b = 13 then ['\\', 'r']
  else if 32 ≤ b ∧ b ≤ 126 then [Char.ofNat b]
  else ['\\', 'x', hexDigit (b / 16), hexDigit (b % 16)]

/-- Python's `repr` (equally `str`) of a `bytes` object: a `b` prefix and a
single-quoted body.  This is what an f-string interpolates for a `bytes` value. -/
def bytesRepr (bs : List Nat) : List Char :=
  'b' :: squote :: ((bs.foldr (fun b acc => byteReprChars b ++ acc) []) ++ [squote])

/-- The credential dictionary `{'login': ..., 'password': ...}` from the source. -/
structure Cred where
  login : String
  password : String
deriving DecidableEq

/-- The `Authorization` header value computed in `ElasticSearchExecutor.__init__`:
`token = base64.b64encode(f'{login}:{password}'.encode())` followed by
`f'Basic {token}'`.  Since `token` is a `bytes` object, the f-string interpolates
its `repr`. -/
def authHeaderValue (auth : Cred) : List Char :=
  "Basic ".data
    ++ bytesRepr ((b64encode (strBytes (auth.login ++ ":" ++ auth.password))).map Char.toNat)

/-- A parsed version: (major, minor, patch), as produced by
`pkg_resources.parse_version` on a `"M.N.P"` string. -/
abbrev ESVersion := Nat × Nat × Nat

/-- Strict version order used by `self.version < parse_version("6.0.0")`:
lexicographic comparison of the release triples. -/
def vlt (a b : ESVersion) : Bool :=
  if a.1 < b.1 then true
  else if a.1 = b.1 then
    if a.2.1 < b.2.1 then true
    else if a.2.1 = b.2.1 then decide (a.2.2 < b.2.2)
    else false
  else false

/-- Consume an exact literal at the head of the input, returning the rest. -/
def dropLit : List Char → List Char → Option (List Char)
  | [], s => some s
  | _ :: _, [] => none
  | a :: as, b :: bs => if a = b then dropLit as bs else none

/-- Attempt to match the regular expression
`Version: (?P<major>\d)\.(?P<minor>\d+)\.(?P<patch>\d+)` at the start of the
input, returning the three captured digit groups.  The `\d+` groups are matched
greedily; since each is followed by a non-digit requirement, maximal munch via
`takeWhile` coincides with the backtracking semantics. -/
def matchAt (s : List Char) : Option (List Char × List Char × List Char) :=
  match dropLit "Version: ".data s with
  | none => none
  | some r1 =>
    match r1 with
    | [] => none
    | d :: r2 =>
      if d.isDigit then
        match r2 with
        | '.' :: r3 =>
          let m := r3.takeWhile Char.isDigit
          if m = [] then none
          else
            match r3.dropWhile Char.isDigit with
            | '.' :: r5 =>
              let p := r5.takeWhile Char.isDigit
              if p = [] then none else some ([d], m, p)
            | _ => none
        | _ => none
      else none

/-- `re.search` for the version pattern: try the match at each position from the
left and return the first (leftmost) successful one. -/
def searchVersion : List Char → Option (List Char × List Char × List Char)
  | [] => none
  | c :: rest =>
    match matchAt (c :: rest) with
    | some g => some g
    | none => searchVersion rest

/-- Decimal digit string to integer; models Python `int()` on a digit string
(as performed by `parse_version` on each dotted component). -/
def digitsToNat (l : List Char) : Nat := l.foldl (fun a c => 10 * a + (c.toNat - 48)) 0

/-- The mutable attributes set by `ElasticSearchExecutor.__init__` before the
`super().__init__` call.  `_version` is the memoization field of the `version`
property (`None` until the first successful detection). -/
structure ESState where
  _version : Option ESVersion
  executable : String
  host : String
  port : Nat
  tcp_port : Nat
  pidfile : String
  logs_path : String
  works_path : String
  cluster_name : String
  network_publish_host : String
  index_store_type : String
  http_auth : Option Cred
deriving DecidableEq

/-- Message of the `RuntimeError` raised when the version output is unrecognized. -/
def unsupportedFormatMsg (out : String) : List Char :=
  "Elasticsearch version is not recognized. It is probably not supported. \nOutput is: ".data
    ++ out.data

/-- Message of the `RuntimeError` raised when `check_output` raises `OSError`. -/
def notElasticsearchMsg (exe : String) : List Char :=
  squote :: (exe.data ++ (squote :: " does not point to elasticsearch.".data))

/-- Message of the `RuntimeError` raised for versions below 6.0.0. -/
def unsupportedVersionMsg : List Char := "This elasticsearch version is not supported.".data

/-- The `version` property of `ElasticSearchExecutor`.  If a version is cached
it is returned without consulting the binary.  Otherwise the binary is invoked
(`inv` models the outcome of `check_output([self.executable, "-Vv"])`), its
output is scanned with `re.search`, and on success the parsed triple is stored
in `_version`.  The pair returned is (result of the call, state afterwards). -/
def versionCall (st : ESState) (inv : Except Unit String) :
    Except (List Char) ESVersion × ESState :=
  match st._version with
  | some v => (Except.ok v, st)
  | none =>
    match inv with
    | Except.error _ => (Except.error (notElasticsearchMsg st.executable), st)
    | Except.ok out =>
      match searchVersion out.data with
      | none => (Except.error (unsupportedFormatMsg out), st)
      | some (ma, mi, pa) =>
        let v : ESVersion := (digitsToNat ma, digitsToNat mi, digitsToNat pa)
        (Except.ok v, { st with _version := some v })

/-- The exact characters of the f-string returned by `_exec_command`
(12 spaces of indentation inside the triple-quoted string, 8 before its end). -/
def cmdChars (st : ESState) : List Char :=
  "\n            ".data ++ st.executable.data ++ " -p ".data ++ st.pidfile.data
    ++ "\n            -E http.port=".data ++ natDigits st.port
    ++ "\n            -E transport.tcp.port=".data ++ natDigits st.tcp_port
    ++ "\n            -E path.logs=".data ++ st.logs_path.data
    ++ "\n            -E path.data=".data ++ st.works_path.data
    ++ "\n            -E cluster.name=".data ++ st.cluster_name.data
    ++ "\n            -E network.host=".data ++ (squote :: st.network_publish_host.data)
    ++ (squote :: "\n            -E index.store.type=".data) ++ st.index_store_type.data
    ++ "\n        ".data

/-- The version-conditional part of `_exec_command`: reject versions below
6.0.0, otherwise return the command string. -/
def buildCommand (st : ESState) (v : ESVersion) : Except (List Char) (List Char) :=
  if vlt v (6, 0, 0) then Except.error unsupportedVersionMsg
  else Except.ok (cmdChars st)

/-- `_exec_command` as called from `__init__`: evaluates the `version` property
(which may invoke the binary) and then builds the command. -/
def execCommand (st : ESState) (inv : Except Unit String) :
    Except (List Char) (List Char) × ESState :=
  match versionCall st inv with
  | (Except.error e, st1) => (Except.error e, st1)
  | (Except.ok v, st1) => (buildCommand st1 v, st1)

/-- URL handed to the supervisor: `f"http://{self.host}:{self.port}"`. -/
def urlChars (host : String) (port : Nat) : List Char :=
  "http://".data ++ host.data ++ (':' :: natDigits port)

/-- A fully constructed `ElasticSearchExecutor`: the attribute state plus the
arguments handed to the supervisor's `HTTPExecutor.__init__`. -/
structure ElasticSearchExecutor where
  state : ESState
  command : List Char
  url : List Char
  timeout : Nat
  headers : Option (List Char)
deriving DecidableEq

/-- `ElasticSearchExecutor.__init__`: stores the configuration (performing no
validation of any field), derives the Authorization header value when
credentials are present, evaluates `_exec_command()` (triggering version
detection on `inv`), and hands command/url/timeout/headers to the supervisor.
Any `RuntimeError` from version detection or command building propagates. -/
def initExecutor (executable host : String) (port tcp_port : Nat)
    (pidfile logs_path works_path cluster_name network_publish_host index_store_type : String)
    (timeout : Nat) (http_auth : Option Cred) (inv : Except Unit String) :
    Except (List Char) ElasticSearchExecutor :=
  let st0 : ESState :=
    { _version := none, executable := executable, host := host, port := port,
      tcp_port := tcp_port, pidfile := pidfile, logs_path := logs_path,
      works_path := works_path, cluster_name := cluster_name,
      network_publish_host := network_publish_host,
      index_store_type := index_store_type, http_auth := http_auth }
  let headers := http_auth.map authHeaderValue
  match execCommand st0 inv with
  | (Except.error e, _) => Except.error e
  | (Except.ok cmd, st1) =>
    Except.ok { state := st1, command := cmd, url := urlChars host port,
                timeout := timeout, headers := headers }

/-- The `NoopElasticsearch` mock.  `login`/`password` are `Option`s because the
source sets those instance attributes only when `http_auth` is not `None`;
`none` models the attribute not existing at all. -/
structure NoopElasticsearch where
  host : String
  port : Nat
  login : Option String
  password : Option String
deriving DecidableEq

/-- `NoopElasticsearch.__init__`. -/
def noopInit (host : String) (port : Nat) (http_auth : Option Cred) : NoopElasticsearch :=
  { host := host, port := port,
    login := http_auth.map Cred.login,
    password := http_auth.map Cred.password }

/-- Python attribute access on `NoopElasticsearch.login`: an `AttributeError`
when the attribute was never set. -/
def noopAttrLogin (n : NoopElasticsearch) : Except (List Char) String :=
  match n.login with
  | some l => Except.ok l
  | none => Except.error "AttributeError".data

/-- Python attribute access on `NoopElasticsearch.password`: an `AttributeError`
when the attribute was never set. -/
def noopAttrPassword (n : NoopElasticsearch) : Except (List Char) String :=
  match n.password with
  | some p => Except.ok p
  | none => Except.error "AttributeError".data

/-- `NoopElasticsearch.running`, a static method returning `True`. -/
def noopRunning : Bool := true

/-- Number of positions of `s` (including the end position) at which the
pattern `p` occurs as a contiguous block. -/
def countPat (p : List Char) : List Char → Nat
  | [] => if p.isEmpty then 1 else 0
  | c :: s => (if p.isPrefixOf (c :: s) then 1 else 0) + countPat p s

/-- `p` occurs as a contiguous block somewhere inside `s`. -/
def occursIn (p s : List Char) : Prop := ∃ a b, s = a ++ (p ++ b)

/-- The command characters as a function of the nine interpolated character
blocks (the seven string fields and the two decimal port renderings); `cmdChars`
is definitionally this applied to the fields of the state. -/
def cmdOf (exe pid po tc lo wo cl nph ist : List Char) : List Char :=
  "\n            ".data ++ exe ++ " -p ".data ++ pid
    ++ "\n            -E http.port=".data ++ po
    ++ "\n            -E transport.tcp.port=".data ++ tc
    ++ "\n            -E path.logs=".data ++ lo
    ++ "\n            -E path.data=".data ++ wo
    ++ "\n            -E cluster.name=".data ++ cl
    ++ "\n            -E network.host=".data ++ (squote :: nph)
    ++ (squote :: "\n            -E index.store.type=".data) ++ ist
    ++ "\n        ".data

/-- A sample benign configuration state used to instantiate theorems. -/
def sampleState : ESState :=
  { _version := none, executable := "/opt/es/bin/elasticsearch", host := "127.0.0.1",
    port := 9200, tcp_port := 9300, pidfile := "/tmp/es.pid", logs_path := "/tmp/logs",
    works_path := "/tmp/works", cluster_name := "escluster",
    network_publish_host := "127.0.0.1", index_store_type := "mmapfs", http_auth := none }

/-- A configuration whose cluster name smuggles a second `http.port` setting
into the command (the builder performs no escaping). -/
def adversState : ESState := { sampleState with cluster_name := "-E http.port=9200" }

/-! ### Helper lemmas -/

theorem countPat_cons_ne (c : Char) (p' : List Char) (x : Char) (s : List Char)
    (h : (c == x) = false) : countPat (c :: p') (x :: s) = countPat (c :: p') s := by
  simp [countPat, List.isPrefixOf, h]

theorem countPat_skip_block (c : Char) (p' : List Char) (xs ys : List Char)
    (h : c ∉ xs) : countPat (c :: p') (xs ++ ys) = countPat (c :: p') ys := by
  induction xs with
  | nil => rfl
  | cons x xt ih =>
      have hx : (c == x) = false := by
        simp only [beq_eq_false_iff_ne, ne_eq]
        intro hc; exact h (hc ▸ List.mem_cons_self x xt)
      simp only [List.cons_append, countPat_cons_ne c p' x _ hx]
      exact ih (fun hm => h (List.mem_cons_of_mem x hm))

theorem isPrefixOf_self_app (l m : List Char) : l.isPrefixOf (l ++ m) = true := by
  induction l with
  | nil => simp [List.isPrefixOf]
  | cons a t ih => simp [List.isPrefixOf, ih]

theorem isPrefixOf_app_sandwich (l : List Char) (c : Char) (m : List Char) :
    (l ++ [c]).isPrefixOf (l ++ (c :: m)) = true := by
  induction l with
  | nil => simp [List.isPrefixOf]
  | cons a t ih => simp [List.isPrefixOf, ih]

theorem dataRedL1 : "\n            ".data = ['\n', ' ', ' ', ' ', ' ', ' ', ' ', ' ', ' ', ' ', ' ', ' ', ' '] := rfl

theorem dataRedL2 : " -p ".data = [' ', '-', 'p', ' '] := rfl

theorem dataRedL3 : "\n            -E http.port=".data = ['\n', ' ', ' ', ' ', ' ', ' ', ' ', ' ', ' ', ' ', ' ', ' ', ' ', '-', 'E', ' ', 'h', 't', 't', 'p', '.', 'p', 'o', 'r', 't', '='] := rfl

theorem dataRedL4 : "\n            -E transport.tcp.port=".data = ['\n', ' ', ' ', ' ', ' ', ' ', ' ', ' ', ' ', ' ', ' ', ' ', ' ', '-', 'E', ' ', 't', 'r', 'a', 'n', 's', 'p', 'o', 'r', 't', '.', 't', 'c', 'p', '.', 'p', 'o', 'r', 't', '='] := rfl

theorem dataRedL5 : "\n            -E path.logs=".data = ['\n', ' ', ' ', ' ', ' ', ' ', ' ', ' ', ' ', ' ', ' ', ' ', ' ', '-', 'E', ' ', 'p', 'a', 't', 'h', '.', 'l', 'o', 'g', 's', '='] := rfl

theorem dataRedL6 : "\n            -E path.data=".data = ['\n', ' ', ' ', ' ', ' ', ' ', ' ', ' ', ' ', ' ', ' ', ' ', ' ', '-', 'E', ' ', 'p', 'a', 't', 'h', '.', 'd', 'a', 't', 'a', '='] := rfl

theorem dataRedL7 : "\n            -E cluster.name=".data = ['\n', ' ', ' ', ' ', ' ', ' ', ' ', ' ', ' ', ' ', ' ', ' ', ' ', '-', 'E', ' ', 'c', 'l', 'u', 's', 't', 'e', 'r', '.', 'n', 'a', 'm', 'e', '='] := rfl

theorem dataRedL8 : "\n            -E network.host=".data = ['\n', ' ', ' ', ' ', ' ', ' ', ' ', ' ', ' ', ' ', ' ', ' ', ' ', '-', 'E', ' ', 'n', 'e', 't', 'w', 'o', 'r', 'k', '.', 'h', 'o', 's', 't', '='] := rfl

theorem dataRedL9 : "\n            -E index.store.type=".data = ['\n', ' ', ' ', ' ', ' ', ' ', ' ', ' ', ' ', ' ', ' ', ' ', ' ', '-', 'E', ' ', 'i', 'n', 'd', 'e', 'x', '.', 's', 't', 'o', 'r', 'e', '.', 't', 'y', 'p', 'e', '='] := rfl

theorem dataRedL10 : "\n        ".data = ['\n', ' ', ' ', ' ', ' ', ' ', ' ', ' ', ' '] := rfl

theorem dataRedP1 : "-p ".data = ['-', 'p', ' '] := rfl

theorem dataRedP2 : "-E http.port=".data = ['-', 'E', ' ', 'h', 't', 't', 'p', '.', 'p', 'o', 'r', 't', '='] := rfl

theorem dataRedP3 : "-E transport.tcp.port=".data = ['-', 'E', ' ', 't', 'r', 'a', 'n', 's', 'p', 'o', 'r', 't', '.', 't', 'c', 'p', '.', 'p', 'o', 'r', 't', '='] := rfl

theorem dataRedP4 : "-E path.logs=".data = ['-', 'E', ' ', 'p', 'a', 't', 'h', '.', 'l', 'o', 'g', 's', '='] := rfl

theorem dataRedP5 : "-E path.data=".data = ['-', 'E', ' ', 'p', 'a', 't', 'h', '.', 'd', 'a', 't', 'a', '='] := rfl

theorem dataRedP6 : "-E cluster.name=".data = ['-', 'E', ' ', 'c', 'l', 'u', 's', 't', 'e', 'r', '.', 'n', 'a', 'm', 'e', '='] := rfl

theorem dataRedP7 : "-E network.host=".data = ['-', 'E', ' ', 'n', 'e', 't', 'w', 'o', 'r', 'k', '.', 'h', 'o', 's', 't', '='] := rfl

theorem dataRedP8 : "-E index.store.type=".data = ['-', 'E', ' ', 'i', 'n', 'd', 'e', 'x', '.', 's', 't', 'o', 'r', 'e', '.', 't', 'y', 'p', 'e', '='] := rfl

theorem cmdChars_eq (st : ESState) :
    cmdChars st = cmdOf st.executable.data st.pidfile.data (natDigits st.port)
      (natDigits st.tcp_port) st.logs_path.data st.works_path.data st.cluster_name.data
      st.network_publish_host.data st.index_store_type.data := rfl

theorem isDigit_digitChar (n : Nat) (h : n < 10) : (digitChar n).isDigit = true := by
  interval_cases n <;> decide

theorem isDigit_of_mem_natDigitsAux (fuel n : Nat) (c : Char)
    (h : c ∈ natDigitsAux fuel n) : c.isDigit = true := by
  induction fuel generalizing n with
  | zero => simp [natDigitsAux] at h
  | succ f ih =>
      simp only [natDigitsAux] at h
      by_cases hn : n < 10
      · rw [if_pos hn] at h
        simp only [List.mem_singleton] at h
        exact h ▸ isDigit_digitChar n hn
      · rw [if_neg hn] at h
        rcases List.mem_append.mp h with h1 | h2
        · exact ih (n / 10) h1
        · simp only [List.mem_singleton] at h2
          exact h2 ▸ isDigit_digitChar (n % 10) (Nat.mod_lt n (by omega))

theorem isDigit_of_mem_natDigits (n : Nat) (c : Char) (h : c ∈ natDigits n) :
    c.isDigit = true := isDigit_of_mem_natDigitsAux (n + 1) n c h

theorem hyphen_not_mem_natDigits (n : Nat) : '-' ∉ natDigits n := by
  intro h
  have := isDigit_of_mem_natDigits n '-' h
  simp [Char.isDigit] at this

theorem dropLit_self_app (l r : List Char) : dropLit l (l ++ r) = some r := by
  induction l with
  | nil => rfl
  | cons a t ih => simp [dropLit, ih]

theorem takeWhile_app_all (P : Char → Bool) (xs ys : List Char)
    (h : ∀ c ∈ xs, P c = true) :
    (xs ++ ys).takeWhile P = xs ++ ys.takeWhile P := by
  induction xs with
  | nil => rfl
  | cons x xt ih =>
      rw [List.cons_append, List.takeWhile_cons, h x (List.mem_cons_self x xt)]
      simp only [List.cons_append, if_true]
      rw [ih (fun c hc => h c (List.mem_cons_of_mem x hc))]

theorem dropWhile_app_all (P : Char → Bool) (xs ys : List Char)
    (h : ∀ c ∈ xs, P c = true) :
    (xs ++ ys).dropWhile P = ys.dropWhile P := by
  induction xs with
  | nil => rfl
  | cons x xt ih =>
      rw [List.cons_append, List.dropWhile_cons, h x (List.mem_cons_self x xt)]
      simp only [if_true]
      exact ih (fun c hc => h c (List.mem_cons_of_mem x hc))

theorem takeWhile_head_false (P : Char → Bool) (post : List Char)
    (h : ∀ c cs, post = c :: cs → P c = false) : post.takeWhile P = [] := by
  cases post with
  | nil => rfl
  | cons c cs => rw [List.takeWhile_cons, h c cs rfl]; rfl

theorem matchAt_exact (d : Char) (m p post : List Char)
    (hd : d.isDigit = true) (hm : m ≠ []) (hma : ∀ c ∈ m, c.isDigit = true)
    (hp : p ≠ []) (hpa : ∀ c ∈ p, c.isDigit = true)
    (hpost : ∀ c cs, post = c :: cs → c.isDigit = false) :
    matchAt ("Version: ".data ++ (d :: ('.' :: (m ++ ('.' :: (p ++ post)))))) = some ([d], m, p) := by
  have hdot : ('.' : Char).isDigit = false := by decide
  have e1 : List.takeWhile Char.isDigit (m ++ ('.' :: (p ++ post))) = m := by
    rw [takeWhile_app_all Char.isDigit m _ hma, List.takeWhile_cons, hdot]
    simp
  have e2 : List.dropWhile Char.isDigit (m ++ ('.' :: (p ++ post))) = '.' :: (p ++ post) := by
    rw [dropWhile_app_all Char.isDigit m _ hma, List.dropWhile_cons, hdot]
    simp
  have e3 : List.takeWhile Char.isDigit (p ++ post) = p := by
    rw [takeWhile_app_all Char.isDigit p post hpa, takeWhile_head_false Char.isDigit post hpost,
      List.append_nil]
  unfold matchAt
  rw [dropLit_self_app]
  simp only [hd, if_true, e1, e2, e3]
  simp [hm, hp]

theorem searchVersion_cons (c : Char) (rest : List Char) :
    searchVersion (c :: rest)
      = match matchAt (c :: rest) with
        | some g => some g
        | none => searchVersion rest := rfl

theorem searchVersion_skip (pre t : List Char)
    (h : ∀ i, i < pre.length → matchAt (List.drop i (pre ++ t)) = none) :
    searchVersion (pre ++ t) = searchVersion t := by
  induction pre with
  | nil => rfl
  | cons c ct ih =>
      have h0 : matchAt (c :: (ct ++ t)) = none := by
        have := h 0 (by simp)
        simpa using this
      rw [List.cons_append, searchVersion_cons, h0]
      exact ih (fun i hi => by
        have := h (i + 1) (by simpa using Nat.succ_lt_succ hi)
        simpa [List.drop_succ_cons] using this)

theorem beq_hyphen_squote : (('-' : Char) == squote) = false := by decide

set_option maxHeartbeats 1000000 in
set_option maxRecDepth 4000 in
theorem count_pidfile_flag (exe pid po tc lo wo cl nph ist : List Char)
    (hexe : '-' ∉ exe) (hpid : '-' ∉ pid) (hpo : '-' ∉ po) (htc : '-' ∉ tc) (hlo : '-' ∉ lo)
    (hwo : '-' ∉ wo) (hcl : '-' ∉ cl) (hnph : '-' ∉ nph) (hist : '-' ∉ ist) :
    countPat ("-p ".data ++ pid) (cmdOf exe pid po tc lo wo cl nph ist) = 1 := by
  simp only [cmdOf, dataRedL1, dataRedL2, dataRedL3, dataRedL4, dataRedL5, dataRedL6,
    dataRedL7, dataRedL8, dataRedL9, dataRedL10, dataRedP1, dataRedP2, dataRedP3,
    dataRedP4, dataRedP5, dataRedP6, dataRedP7, dataRedP8, List.cons_append,
    List.nil_append, List.append_assoc]
  simp [countPat, List.isPrefixOf, isPrefixOf_self_app, isPrefixOf_app_sandwich,
    countPat_skip_block, beq_hyphen_squote, hexe, hpid, hpo, htc, hlo, hwo, hcl, hnph, hist]

set_option maxHeartbeats 1000000 in
set_option maxRecDepth 4000 in
theorem count_http_port (exe pid po tc lo wo cl nph ist : List Char)
    (hexe : '-' ∉ exe) (hpid : '-' ∉ pid) (hpo : '-' ∉ po) (htc : '-' ∉ tc) (hlo : '-' ∉ lo)
    (hwo : '-' ∉ wo) (hcl : '-' ∉ cl) (hnph : '-' ∉ nph) (hist : '-' ∉ ist) :
    countPat ("-E http.port=".data ++ po) (cmdOf exe pid po tc lo wo cl nph ist) = 1 := by
  simp only [cmdOf, dataRedL1, dataRedL2, dataRedL3, dataRedL4, dataRedL5, dataRedL6,
    dataRedL7, dataRedL8, dataRedL9, dataRedL10, dataRedP1, dataRedP2, dataRedP3,
    dataRedP4, dataRedP5, dataRedP6, dataRedP7, dataRedP8, List.cons_append,
    List.nil_append, List.append_assoc]
  simp [countPat, List.isPrefixOf, isPrefixOf_self_app, isPrefixOf_app_sandwich,
    countPat_skip_block, beq_hyphen_squote, hexe, hpid, hpo, htc, hlo, hwo, hcl, hnph, hist]

set_option maxHeartbeats 1000000 in
set_option maxRecDepth 4000 in
theorem count_tcp_port (exe pid po tc lo wo cl nph ist : List Char)
    (hexe : '-' ∉ exe) (hpid : '-' ∉ pid) (hpo : '-' ∉ po) (htc : '-' ∉ tc) (hlo : '-' ∉ lo)
    (hwo : '-' ∉ wo) (hcl : '-' ∉ cl) (hnph : '-' ∉ nph) (hist : '-' ∉ ist) :
    countPat ("-E transport.tcp.port=".data ++ tc) (cmdOf exe pid po tc lo wo cl nph ist) = 1 := by
  simp only [cmdOf, dataRedL1, dataRedL2, dataRedL3, dataRedL4, dataRedL5, dataRedL6,
    dataRedL7, dataRedL8, dataRedL9, dataRedL10, dataRedP1, dataRedP2, dataRedP3,
    dataRedP4, dataRedP5, dataRedP6, dataRedP7, dataRedP8, List.cons_append,
    List.nil_append, List.append_assoc]
  simp [countPat, List.isPrefixOf, isPrefixOf_self_app, isPrefixOf_app_sandwich,
    countPat_skip_block, beq_hyphen_squote, hexe, hpid, hpo, htc, hlo, hwo, hcl, hnph, hist]

set_option maxHeartbeats 1000000 in
set_option maxRecDepth 4000 in
theorem count_path_logs (exe pid po tc lo wo cl nph ist : List Char)
    (hexe : '-' ∉ exe) (hpid : '-' ∉ pid) (hpo : '-' ∉ po) (htc : '-' ∉ tc) (hlo : '-' ∉ lo)
    (hwo : '-' ∉ wo) (hcl : '-' ∉ cl) (hnph : '-' ∉ nph) (hist : '-' ∉ ist) :
    countPat ("-E path.logs=".data ++ lo) (cmdOf exe pid po tc lo wo cl nph ist) = 1 := by
  simp only [cmdOf, dataRedL1, dataRedL2, dataRedL3, dataRedL4, dataRedL5, dataRedL6,
    dataRedL7, dataRedL8, dataRedL9, dataRedL10, dataRedP1, dataRedP2, dataRedP3,
    dataRedP4, dataRedP5, dataRedP6, dataRedP7, dataRedP8, List.cons_append,
    List.nil_append, List.append_assoc]
  simp [countPat, List.isPrefixOf, isPrefixOf_self_app, isPrefixOf_app_sandwich,
    countPat_skip_block, beq_hyphen_squote, hexe, hpid, hpo, htc, hlo, hwo, hcl, hnph, hist]

set_option maxHeartbeats 1000000 in
set_option maxRecDepth 4000 in
theorem count_path_data (exe pid po tc lo wo cl nph ist : List Char)
    (hexe : '-' ∉ exe) (hpid : '-' ∉ pid) (hpo : '-' ∉ po) (htc : '-' ∉ tc) (hlo : '-' ∉ lo)
    (hwo : '-' ∉ wo) (hcl : '-' ∉ cl) (hnph : '-' ∉ nph) (hist : '-' ∉ ist) :
    countPat ("-E path.data=".data ++ wo) (cmdOf exe pid po tc lo wo cl nph ist) = 1 := by
  simp only [cmdOf, dataRedL1, dataRedL2, dataRedL3, dataRedL4, dataRedL5, dataRedL6,
    dataRedL7, dataRedL8, dataRedL9, dataRedL10, dataRedP1, dataRedP2, dataRedP3,
    dataRedP4, dataRedP5, dataRedP6, dataRedP7, dataRedP8, List.cons_append,
    List.nil_append, List.append_assoc]
  simp [countPat, List.isPrefixOf, isPrefixOf_self_app, isPrefixOf_app_sandwich,
    countPat_skip_block, beq_hyphen_squote, hexe, hpid, hpo, htc, hlo, hwo, hcl, hnph, hist]

set_option maxHeartbeats 1000000 in
set_option maxRecDepth 4000 in
theorem count_cluster_name (exe pid po tc lo wo cl nph ist : List Char)
    (hexe : '-' ∉ exe) (hpid : '-' ∉ pid) (hpo : '-' ∉ po) (htc : '-' ∉ tc) (hlo : '-' ∉ lo)
    (hwo : '-' ∉ wo) (hcl : '-' ∉ cl) (hnph : '-' ∉ nph) (hist : '-' ∉ ist) :
    countPat ("-E cluster.name=".data ++ cl) (cmdOf exe pid po tc lo wo cl nph ist) = 1 := by
  simp only [cmdOf, dataRedL1, dataRedL2, dataRedL3, dataRedL4, dataRedL5, dataRedL6,
    dataRedL7, dataRedL8, dataRedL9, dataRedL10, dataRedP1, dataRedP2, dataRedP3,
    dataRedP4, dataRedP5, dataRedP6, dataRedP7, dataRedP8, List.cons_append,
    List.nil_append, List.append_assoc]
  simp [countPat, List.isPrefixOf, isPrefixOf_self_app, isPrefixOf_app_sandwich,
    countPat_skip_block, beq_hyphen_squote, hexe, hpid, hpo, htc, hlo, hwo, hcl, hnph, hist]

set_option maxHeartbeats 1000000 in
set_option maxRecDepth 4000 in
theorem count_network_host (exe pid po tc lo wo cl nph ist : List Char)
    (hexe : '-' ∉ exe) (hpid : '-' ∉ pid) (hpo : '-' ∉ po) (htc : '-' ∉ tc) (hlo : '-' ∉ lo)
    (hwo : '-' ∉ wo) (hcl : '-' ∉ cl) (hnph : '-' ∉ nph) (hist : '-' ∉ ist) :
    countPat ("-E network.host=".data ++ (squote :: (nph ++ [squote]))) (cmdOf exe pid po tc lo wo cl nph ist) = 1 := by
  simp only [cmdOf, dataRedL1, dataRedL2, dataRedL3, dataRedL4, dataRedL5, dataRedL6,
    dataRedL7, dataRedL8, dataRedL9, dataRedL10, dataRedP1, dataRedP2, dataRedP3,
    dataRedP4, dataRedP5, dataRedP6, dataRedP7, dataRedP8, List.cons_append,
    List.nil_append, List.append_assoc]
  simp [countPat, List.isPrefixOf, isPrefixOf_self_app, isPrefixOf_app_sandwich,
    countPat_skip_block, beq_hyphen_squote, hexe, hpid, hpo, htc, hlo, hwo, hcl, hnph, hist]

set_option maxHeartbeats 1000000 in
set_option maxRecDepth 4000 in
theorem count_index_store (exe pid po tc lo wo cl nph ist : List Char)
    (hexe : '-' ∉ exe) (hpid : '-' ∉ pid) (hpo : '-' ∉ po) (htc : '-' ∉ tc) (hlo : '-' ∉ lo)
    (hwo : '-' ∉ wo) (hcl : '-' ∉ cl) (hnph : '-' ∉ nph) (hist : '-' ∉ ist) :
    countPat ("-E index.store.type=".data ++ ist) (cmdOf exe pid po tc lo wo cl nph ist) = 1 := by
  simp only [cmdOf, dataRedL1, dataRedL2, dataRedL3, dataRedL4, dataRedL5, dataRedL6,
    dataRedL7, dataRedL8, dataRedL9, dataRedL10, dataRedP1, dataRedP2, dataRedP3,
    dataRedP4, dataRedP5, dataRedP6, dataRedP7, dataRedP8, List.cons_append,
    List.nil_append, List.append_assoc]
  simp [countPat, List.isPrefixOf, isPrefixOf_self_app, isPrefixOf_app_sandwich,
    countPat_skip_block, beq_hyphen_squote, hexe, hpid, hpo, htc, hlo, hwo, hcl, hnph, hist]

/-! ### Claim theorems -/

/-- C1 (code bug witness): for credentials login `elastic`, password `secret`,
the Authorization value the constructor derives is `Basic b` followed by the
single-quoted base64 text — the f-string interpolates the `repr` of the `bytes`
returned by `base64.b64encode` — and not `Basic ` followed by the standard
base64 encoding of `elastic:secret` (which is `ZWxhc3RpYzpzZWNyZXQ=`), as the
specification states. -/
theorem auth_header_is_bytes_repr_not_base64 :
    authHeaderValue ⟨"elastic", "secret"⟩
        = "Basic b".data ++ (squote :: ("ZWxhc3RpYzpzZWNyZXQ=".data ++ [squote]))
  ∧ b64encode (strBytes "elastic:secret") = "ZWxhc3RpYzpzZWNyZXQ=".data
  ∧ authHeaderValue ⟨"elastic", "secret"⟩ ≠ "Basic ZWxhc3RpYzpzZWNyZXQ=".data := by
  refine ⟨by decide, by decide, by decide⟩

/-- C10: a `NoopElasticsearch` constructed without credentials has no `login`
or `password` attribute at all (accessing either raises `AttributeError`),
while one constructed with a credential pair exposes exactly the supplied
components; `running()` returns `True` in both cases. -/
theorem noop_login_password_presence (host : String) (port : Nat) (l pw : String) :
    noopAttrLogin (noopInit host port none) = Except.error "AttributeError".data
  ∧ noopAttrPassword (noopInit host port none) = Except.error "AttributeError".data
  ∧ (noopInit host port none).login = none
  ∧ (noopInit host port none).password = none
  ∧ (noopInit host port (some ⟨l, pw⟩)).login = some l
  ∧ (noopInit host port (some ⟨l, pw⟩)).password = some pw
  ∧ noopRunning = true :=
  ⟨rfl, rfl, rfl, rfl, rfl, rfl, rfl⟩

theorem vlt_six (a b c : Nat) : vlt (a, b, c) (6, 0, 0) = decide (a < 6) := by
  unfold vlt
  by_cases h : a < 6
  · simp [h]
  · simp [h, Nat.not_lt_zero]

/-- C4: command building fails with the unsupported-version `RuntimeError`
exactly for detected versions strictly below 6.0.0 (equivalently, major
version below 6, under the lexicographic order used by the source), and for
6.0.0 and above returns the command without this error. -/
theorem buildCommand_version_gate (st : ESState) (v : ESVersion) :
    (v.1 < 6 → buildCommand st v = Except.error unsupportedVersionMsg)
  ∧ (6 ≤ v.1 → buildCommand st v = Except.ok (cmdChars st)) := by
  obtain ⟨a, b, c⟩ := v
  constructor
  · intro h
    unfold buildCommand
    rw [vlt_six]
    simp only [decide_eq_true_eq]
    rw [if_pos (by simpa using h)]
  · intro h
    unfold buildCommand
    rw [vlt_six]
    simp only [decide_eq_true_eq]
    rw [if_neg (by simp only [Nat.not_lt]; simpa using h)]

/-- Witness for C4 at the spec's example versions 5.6.16 and 7.10.2. -/
theorem buildCommand_version_gate_witness :
    buildCommand sampleState (5, 6, 16) = Except.error unsupportedVersionMsg
  ∧ buildCommand sampleState (7, 10, 2) = Except.ok (cmdChars sampleState) :=
  ⟨(buildCommand_version_gate sampleState (5, 6, 16)).1 (by decide),
   (buildCommand_version_gate sampleState (7, 10, 2)).2 (by decide)⟩

/-- C5: once a call to `version` has succeeded, every later call on the
resulting state returns the same cached version and leaves the state unchanged,
regardless of what the binary would now output (the invocation argument of the
later call is arbitrary, including the OSError outcome). -/
theorem version_memoized_after_success (st st' : ESState) (inv : Except Unit String)
    (v : ESVersion) (h : versionCall st inv = (Except.ok v, st')) :
    ∀ inv', versionCall st' inv' = (Except.ok v, st') := by
  intro inv'
  have hv : st'._version = some v := by
    cases hc : st._version with
    | some v0 =>
        simp only [versionCall, hc] at h
        rw [Prod.mk.injEq] at h
        obtain ⟨h1, h2⟩ := h
        rw [← h2, hc]
        simpa using h1
    | none =>
        cases inv with
        | error u =>
            simp only [versionCall, hc] at h
            rw [Prod.mk.injEq] at h
            exact absurd h.1 (by simp)
        | ok out =>
            cases hs : searchVersion out.data with
            | none =>
                simp only [versionCall, hc, hs] at h
                rw [Prod.mk.injEq] at h
                exact absurd h.1 (by simp)
            | some g =>
                obtain ⟨ma, mi, pa⟩ := g
                simp only [versionCall, hc, hs] at h
                rw [Prod.mk.injEq] at h
                obtain ⟨h1, h2⟩ := h
                rw [← h2]
                simpa using h1
  simp only [versionCall, hv]

/-- Witness for C5: detection succeeds on `Version: 7.10.2`; the second call is
handed the OSError outcome and still returns the cached 7.10.2. -/
theorem version_memoized_after_success_witness :
    versionCall { sampleState with _version := some (7, 10, 2) } (Except.error ())
      = (Except.ok (7, 10, 2), { sampleState with _version := some (7, 10, 2) }) :=
  version_memoized_after_success sampleState { sampleState with _version := some (7, 10, 2) }
    (Except.ok "Version: 7.10.2") (7, 10, 2) rfl (Except.error ())

/-- C6: on a fresh executor (no cached version), when spawning the binary
fails with `OSError`, `version` raises a `RuntimeError` whose message contains
the configured executable path, and the state is unchanged. -/
theorem version_oserror_mentions_executable (st : ESState) (h : st._version = none) :
    versionCall st (Except.error ()) = (Except.error (notElasticsearchMsg st.executable), st)
  ∧ occursIn st.executable.data (notElasticsearchMsg st.executable) := by
  constructor
  · simp only [versionCall, h]
  · exact ⟨[squote], squote :: " does not point to elasticsearch.".data, rfl⟩

/-- Witness for C6 at the sample configuration. -/
theorem version_oserror_mentions_executable_witness :
    versionCall sampleState (Except.error ())
        = (Except.error (notElasticsearchMsg "/opt/es/bin/elasticsearch"), sampleState)
  ∧ occursIn "/opt/es/bin/elasticsearch".data (notElasticsearchMsg "/opt/es/bin/elasticsearch") :=
  version_oserror_mentions_executable sampleState rfl

/-- C7: on a fresh executor, when the binary runs but its output contains no
occurrence of the version pattern, `version` raises a `RuntimeError` whose
message contains the full captured output, and the state is unchanged. -/
theorem version_unrecognized_output_in_message (st : ESState) (out : String)
    (h : st._version = none) (hs : searchVersion out.data = none) :
    versionCall st (Except.ok out) = (Except.error (unsupportedFormatMsg out), st)
  ∧ occursIn out.data (unsupportedFormatMsg out) := by
  constructor
  · simp only [versionCall, h, hs]
  · refine ⟨"Elasticsearch version is not recognized. It is probably not supported. \nOutput is: ".data,
      [], ?_⟩
    simp [unsupportedFormatMsg]

/-- Witness for C7 on an output with no `Version: M.N.P` line. -/
theorem version_unrecognized_output_in_message_witness :
    versionCall sampleState (Except.ok "OpenSearch 2.1.0")
        = (Except.error (unsupportedFormatMsg "OpenSearch 2.1.0"), sampleState)
  ∧ occursIn "OpenSearch 2.1.0".data (unsupportedFormatMsg "OpenSearch 2.1.0") :=
  version_unrecognized_output_in_message sampleState "OpenSearch 2.1.0" rfl rfl

/-- C9: when a `version` call fails — whether because the binary could not be
run or because its output was unrecognized — the executor state is unchanged
(in particular the cache stays empty, which also shows the failing call started
from an empty cache), and a subsequent call whose invocation yields parseable
output succeeds. -/
theorem version_failure_state_unchanged (st st' : ESState) (inv : Except Unit String)
    (e : List Char) (h : versionCall st inv = (Except.error e, st')) :
    st' = st ∧ st._version = none ∧
    ∀ (out : String) (ma mi pa : List Char), searchVersion out.data = some (ma, mi, pa) →
      (versionCall st' (Except.ok out)).1
        = Except.ok (digitsToNat ma, digitsToNat mi, digitsToNat pa) := by
  have key : st' = st ∧ st._version = none := by
    cases hc : st._version with
    | some v0 =>
        simp only [versionCall, hc] at h
        rw [Prod.mk.injEq] at h
        exact absurd h.1 (by simp)
    | none =>
        cases inv with
        | error u =>
            simp only [versionCall, hc] at h
            rw [Prod.mk.injEq] at h
            exact ⟨h.2.symm, rfl⟩
        | ok out =>
            cases hs : searchVersion out.data with
            | none =>
                simp only [versionCall, hc, hs] at h
                rw [Prod.mk.injEq] at h
                exact ⟨h.2.symm, rfl⟩
            | some g =>
                obtain ⟨ma, mi, pa⟩ := g
                simp only [versionCall, hc, hs] at h
                rw [Prod.mk.injEq] at h
                exact absurd h.1 (by simp)
  refine ⟨key.1, key.2, ?_⟩
  intro out ma mi pa hs
  have hv : st'._version = none := by rw [key.1]; exact key.2
  simp only [versionCall, hv, hs]

/-- Witness for C9: a failed spawn leaves the sample state unchanged and a
retry on `Version: 7.10.2` output succeeds. -/
theorem version_failure_state_unchanged_witness :
    sampleState = sampleState ∧ sampleState._version = none ∧
    (versionCall sampleState (Except.ok "Version: 7.10.2")).1 = Except.ok (7, 10, 2) := by
  have h := version_failure_state_unchanged sampleState sampleState (Except.error ())
    (notElasticsearchMsg "/opt/es/bin/elasticsearch") rfl
  exact ⟨h.1, h.2.1, h.2.2 "Version: 7.10.2" ['7'] ['1', '0'] ['2'] rfl⟩

/-- C2 (counterexample): the output `Version: 10.2.3` contains a line of the
form `Version: M.N.P` with decimal digit strings M=10, N=2, P=3, yet `version`
raises the unrecognized-format error instead of returning (10, 2, 3): the
regex accepts a single-digit major only. -/
theorem version_rejects_two_digit_major :
    (versionCall sampleState (Except.ok "Version: 10.2.3")).1
        = Except.error (unsupportedFormatMsg "Version: 10.2.3")
  ∧ (versionCall sampleState (Except.ok "Version: 10.2.3")).1 ≠ Except.ok (10, 2, 3) := by
  constructor
  · rfl
  · intro hcon
    rw [show (versionCall sampleState (Except.ok "Version: 10.2.3")).1
          = Except.error (unsupportedFormatMsg "Version: 10.2.3") from rfl] at hcon
    simp at hcon

/-- C2 (amended): on a fresh executor, for every binary output whose leftmost
occurrence of the pattern `Version: <single digit>.<digits>.<digits>` has
groups d, m, p — the decomposition hypotheses say the pattern occurs there and
at no earlier position, and that the digit run is maximal — `version` returns
the three groups parsed as integers and caches them; and when the output
contains no occurrence of the pattern at all, it fails with the
unrecognized-format `RuntimeError`. -/
theorem version_parses_leftmost_match (st : ESState) (out : String)
    (hst : st._version = none) :
    (∀ (pre : List Char) (d : Char) (m p post : List Char),
        out.data = pre ++ ("Version: ".data ++ (d :: ('.' :: (m ++ ('.' :: (p ++ post)))))) →
        d.isDigit = true →
        m ≠ [] → (∀ c ∈ m, c.isDigit = true) →
        p ≠ [] → (∀ c ∈ p, c.isDigit = true) →
        (∀ c cs, post = c :: cs → c.isDigit = false) →
        (∀ i, i < pre.length → matchAt (out.data.drop i) = none) →
        versionCall st (Except.ok out)
          = (Except.ok (digitsToNat [d], digitsToNat m, digitsToNat p),
             { st with _version := some (digitsToNat [d], digitsToNat m, digitsToNat p) }))
  ∧ (searchVersion out.data = none →
      versionCall st (Except.ok out) = (Except.error (unsupportedFormatMsg out), st)) := by
  constructor
  · intro pre d m p post hout hd hm hma hp hpa hpost hpre
    have hsearch : searchVersion out.data = some ([d], m, p) := by
      rw [hout]
      rw [searchVersion_skip pre _ (fun i hi => by rw [← hout]; exact hpre i hi)]
      have hmt := matchAt_exact d m p post hd hm hma hp hpa hpost
      rw [show ("Version: ".data ++ (d :: ('.' :: (m ++ ('.' :: (p ++ post))))))
            = 'V' :: ("ersion: ".data ++ (d :: ('.' :: (m ++ ('.' :: (p ++ post)))))) from rfl]
      rw [searchVersion_cons]
      rw [show matchAt ('V' :: ("ersion: ".data ++ (d :: ('.' :: (m ++ ('.' :: (p ++ post)))))))
            = matchAt ("Version: ".data ++ (d :: ('.' :: (m ++ ('.' :: (p ++ post)))))) from rfl]
      rw [hmt]
    simp only [versionCall, hst, hsearch]
  · intro hs
    simp only [versionCall, hst, hs]

/-- Witness for C2's amended theorem on the output `Version: 7.10.2\n`. -/
theorem version_parses_leftmost_match_witness :
    versionCall sampleState (Except.ok "Version: 7.10.2\n")
      = (Except.ok (7, 10, 2), { sampleState with _version := some (7, 10, 2) }) := by
  have h := (version_parses_leftmost_match sampleState "Version: 7.10.2\n" rfl).1
    [] '7' ['1', '0'] ['2'] ['\n'] (by decide) (by decide) (by decide) (by decide)
    (by decide) (by decide)
    (by intro c cs hc; injection hc with h1 h2; subst h1; decide)
    (by intro i hi; exact absurd hi (by simp))
  exact h

set_option maxRecDepth 8000 in
/-- C3 (counterexample): with the configured port 9200 and cluster name
`-E http.port=9200`, version 7.10.2 builds a command containing two
occurrences of the http.port setting with the configured value, not exactly
one — the builder performs no escaping of configuration values. -/
theorem command_duplicate_setting :
    buildCommand adversState (7, 10, 2) = Except.ok (cmdChars adversState)
  ∧ countPat ("-E http.port=".data ++ natDigits 9200) (cmdChars adversState) = 2 :=
  ⟨rfl, by decide⟩

/-- C3 (amended): for every configuration whose seven string-valued fields
contain no hyphen (so that no field can smuggle in a flag marker) and every
version of major at least 6, the built command contains exactly one occurrence
of each of the eight settings — pidfile, http.port, transport.tcp.port,
path.logs, path.data, cluster.name, network.host and index.store.type — each
carrying exactly the corresponding configured value, the network.host value
wrapped in single quotes. -/
theorem command_contains_each_setting_once (st : ESState) (v : ESVersion)
    (h6 : 6 ≤ v.1)
    (hexe : '-' ∉ st.executable.data) (hpid : '-' ∉ st.pidfile.data)
    (hlo : '-' ∉ st.logs_path.data) (hwo : '-' ∉ st.works_path.data)
    (hcl : '-' ∉ st.cluster_name.data) (hnph : '-' ∉ st.network_publish_host.data)
    (hist : '-' ∉ st.index_store_type.data) :
    buildCommand st v = Except.ok (cmdChars st)
  ∧ countPat ("-p ".data ++ st.pidfile.data) (cmdChars st) = 1
  ∧ countPat ("-E http.port=".data ++ natDigits st.port) (cmdChars st) = 1
  ∧ countPat ("-E transport.tcp.port=".data ++ natDigits st.tcp_port) (cmdChars st) = 1
  ∧ countPat ("-E path.logs=".data ++ st.logs_path.data) (cmdChars st) = 1
  ∧ countPat ("-E path.data=".data ++ st.works_path.data) (cmdChars st) = 1
  ∧ countPat ("-E cluster.name=".data ++ st.cluster_name.data) (cmdChars st) = 1
  ∧ countPat ("-E network.host=".data ++ (squote :: (st.network_publish_host.data ++ [squote])))
      (cmdChars st) = 1
  ∧ countPat ("-E index.store.type=".data ++ st.index_store_type.data) (cmdChars st) = 1 := by
  have hpo := hyphen_not_mem_natDigits st.port
  have htc := hyphen_not_mem_natDigits st.tcp_port
  have hbc : buildCommand st v = Except.ok (cmdChars st) := by
    obtain ⟨a, b, c⟩ := v
    unfold buildCommand
    rw [vlt_six]
    simp only [decide_eq_true_eq]
    rw [if_neg (by simp only [Nat.not_lt]; simpa using h6)]
  refine ⟨hbc, ?_, ?_, ?_, ?_, ?_, ?_, ?_, ?_⟩ <;> rw [cmdChars_eq st]
  · exact count_pidfile_flag _ _ _ _ _ _ _ _ _ hexe hpid hpo htc hlo hwo hcl hnph hist
  · exact count_http_port _ _ _ _ _ _ _ _ _ hexe hpid hpo htc hlo hwo hcl hnph hist
  · exact count_tcp_port _ _ _ _ _ _ _ _ _ hexe hpid hpo htc hlo hwo hcl hnph hist
  · exact count_path_logs _ _ _ _ _ _ _ _ _ hexe hpid hpo htc hlo hwo hcl hnph hist
  · exact count_path_data _ _ _ _ _ _ _ _ _ hexe hpid hpo htc hlo hwo hcl hnph hist
  · exact count_cluster_name _ _ _ _ _ _ _ _ _ hexe hpid hpo htc hlo hwo hcl hnph hist
  · exact count_network_host _ _ _ _ _ _ _ _ _ hexe hpid hpo htc hlo hwo hcl hnph hist
  · exact count_index_store _ _ _ _ _ _ _ _ _ hexe hpid hpo htc hlo hwo hcl hnph hist

set_option maxRecDepth 8000 in
/-- Witness for C3's amended theorem at the sample configuration and 7.10.2. -/
theorem command_contains_each_setting_once_witness :
    buildCommand sampleState (7, 10, 2) = Except.ok (cmdChars sampleState)
  ∧ countPat ("-p ".data ++ sampleState.pidfile.data) (cmdChars sampleState) = 1
  ∧ countPat ("-E http.port=".data ++ natDigits sampleState.port) (cmdChars sampleState) = 1
  ∧ countPat ("-E transport.tcp.port=".data ++ natDigits sampleState.tcp_port)
      (cmdChars sampleState) = 1
  ∧ countPat ("-E path.logs=".data ++ sampleState.logs_path.data) (cmdChars sampleState) = 1
  ∧ countPat ("-E path.data=".data ++ sampleState.works_path.data) (cmdChars sampleState) = 1
  ∧ countPat ("-E cluster.name=".data ++ sampleState.cluster_name.data)
      (cmdChars sampleState) = 1
  ∧ countPat
      ("-E network.host=".data ++ (squote :: (sampleState.network_publish_host.data ++ [squote])))
      (cmdChars sampleState) = 1
  ∧ countPat ("-E index.store.type=".data ++ sampleState.index_store_type.data)
      (cmdChars sampleState) = 1 :=
  command_contains_each_setting_once sampleState (7, 10, 2) (by decide) (by decide)
    (by decide) (by decide) (by decide) (by decide) (by decide) (by decide)

/-- C8 (counterexample): construction succeeds with port = tcp_port = 9200,
and also with both ports zero, storing the equal values verbatim — the
constructor enforces neither distinctness nor positivity of the two ports. -/
theorem init_accepts_equal_and_zero_ports :
    (initExecutor "elasticsearch" "localhost" 9200 9200 "pid" "logs" "works" "cluster"
        "127.0.0.1" "mmapfs" 30 none (Except.ok "Version: 7.10.2")).map
      (fun e => (e.state.port, e.state.tcp_port)) = Except.ok (9200, 9200)
  ∧ (initExecutor "elasticsearch" "localhost" 0 0 "pid" "logs" "works" "cluster"
        "127.0.0.1" "mmapfs" 30 none (Except.ok "Version: 7.10.2")).map
      (fun e => (e.state.port, e.state.tcp_port)) = Except.ok (0, 0) :=
  ⟨rfl, rfl⟩

/-- C8 (amended): the constructor performs no validation of the two ports: for
any value p supplied for both port and tcp_port, construction succeeds whenever
version detection and command building succeed, and the constructed executor
stores port and tcp_port exactly as supplied (here: equal). -/
theorem init_stores_ports_unvalidated (exe host : String) (p : Nat)
    (pidfile logs works cluster nph ist : String) (timeout : Nat) (auth : Option Cred)
    (out : String) (ma mi pa : List Char)
    (hs : searchVersion out.data = some (ma, mi, pa))
    (h6 : 6 ≤ digitsToNat ma) :
    (initExecutor exe host p p pidfile logs works cluster nph ist timeout auth
        (Except.ok out)).map (fun e => (e.state.port, e.state.tcp_port))
      = Except.ok (p, p) := by
  have hv : vlt (digitsToNat ma, digitsToNat mi, digitsToNat pa) (6, 0, 0) = false := by
    rw [vlt_six]
    simp only [decide_eq_false_iff_not, Nat.not_lt]
    exact h6
  simp only [initExecutor, execCommand, versionCall, hs, buildCommand, hv,
    Bool.false_eq_true, if_false, Except.map]

/-- Witness for C8's amended theorem with both ports 9201. -/
theorem init_stores_ports_unvalidated_witness :
    (initExecutor "es" "localhost" 9201 9201 "pid" "logs" "works" "cluster" "127.0.0.1"
        "mmapfs" 30 none (Except.ok "Version: 7.10.2")).map
      (fun e => (e.state.port, e.state.tcp_port)) = Except.ok (9201, 9201) :=
  init_stores_ports_unvalidated "es" "localhost" 9201 "pid" "logs" "works" "cluster"
    "127.0.0.1" "mmapfs" 30 none "Version: 7.10.2" ['7'] ['1', '0'] ['2'] rfl (by decide)
